import Mathlib

/-!
Shallow embedding of `gradebook.py` (pandas gradebook, plotting-summary-statistics
variant) and verification of its specification.

Modelling conventions:
* Numeric cell values are rationals (`ℚ`).  A pandas cell that may be NaN is an
  `Option ℚ`, with `none` standing for NaN / a missing value.
* pandas reductions use `skipna=True` by default: `skipSum` and `skipMax` below
  transcribe that behaviour (NaN entries are skipped; an empty or all-NaN
  reduction yields 0 for sums and NaN for maxima).
* Float division producing an undefined value when the denominator is zero is
  `qdiv`; in every situation reached by the theorems below a zero denominator
  arises only together with a zero numerator (the 0/0 = NaN case), and theorems
  touching other divisions carry nonzero-denominator hypotheses.
* The three CSV inputs become lists of rows; the two `pd.merge` calls (both
  inner joins, lines 44-50 of the source) become nested flatMap/filter joins,
  and `fillna(0)` (line 52) becomes `Option.getD 0` applied to every numeric
  field of a joined record.
-/

/-- Division as performed by the float pipeline: defined quotient when the
denominator is nonzero, an undefined value (NaN) when it is zero. -/
def qdiv (a b : ℚ) : Option ℚ := if b = 0 then none else some (a / b)

/-- pandas `sum` with the default `skipna=True`: undefined entries are skipped
and an empty (or all-undefined) sum is 0. -/
def skipSum (l : List (Option ℚ)) : ℚ := (l.filterMap id).sum

/-- pandas `max` with the default `skipna=True`: undefined entries are skipped
and an all-undefined (or empty) maximum is itself undefined. -/
def skipMax (l : List (Option ℚ)) : Option ℚ :=
  match l.filterMap id with
  | [] => none
  | x :: xs => some (xs.foldl max x)

/-- Multiplication of a possibly-undefined cell by a weight (NaN propagates). -/
def omul (w : ℚ) (x : Option ℚ) : Option ℚ := x.map fun q => q * w

/-- One row of `roster.csv` (lines 19-24): NetID index, email, section.
Keys are already lower-cased by the CSV converters. -/
structure RosterRow where
  netid : String
  email : String
  sec : String
deriving DecidableEq

/-- One row of `hw_exam_grades.csv` (lines 26-31): SID index, email, the
homework columns `Homework n` with their parallel `Homework n - Max Points`
columns, and the three exam columns with their max-points columns.  Cells may
be missing (NaN) before `fillna`. -/
structure HwExamRow where
  sid : String
  email : String
  hwScores : List (Option ℚ)
  hwMax : List (Option ℚ)
  exam1 : Option ℚ
  exam1Max : Option ℚ
  exam2 : Option ℚ
  exam2Max : Option ℚ
  exam3 : Option ℚ
  exam3Max : Option ℚ
deriving DecidableEq

/-- A fully joined and `fillna(0)`-cleaned row of `final_data`: every numeric
field is a defined rational. -/
structure StudentRecord where
  netid : String
  sec : String
  email : String
  exam1 : ℚ
  exam1Max : ℚ
  exam2 : ℚ
  exam2Max : ℚ
  exam3 : ℚ
  exam3Max : ℚ
  hwScores : List ℚ
  hwMax : List ℚ
  quizScores : List ℚ
deriving DecidableEq

/-- Lookup of one student's grade in a single quiz CSV (email-indexed,
lines 36-41): `none` when the email has no row in that file. -/
def quizLookup (file : List (String × ℚ)) (em : String) : Option ℚ :=
  (file.find? fun p => decide (p.1 = em)).map Prod.snd

/-- Index of the quiz DataFrame built by `pd.concat(axis=1)` over the quiz
files (lines 33-42): the union of the emails appearing in any quiz file,
without duplicates. -/
def quiz_grades_emails (files : List (List (String × ℚ))) : List String :=
  (files.foldl (fun acc f => acc ++ f.map Prod.fst) []).dedup

/-- The merged quiz DataFrame (lines 33-42): one row per email seen in any
quiz file, carrying one possibly-missing grade cell per quiz file. -/
def quiz_grades (files : List (List (String × ℚ))) : List (String × List (Option ℚ)) :=
  (quiz_grades_emails files).map fun em => (em, files.map fun f => quizLookup f em)

/-- One output row of the two merges, with `fillna(0)` (line 52) applied:
every missing numeric cell becomes 0. -/
def joinRecord (r : RosterRow) (h : HwExamRow) (q : String × List (Option ℚ)) :
    StudentRecord where
  netid := r.netid
  sec := r.sec
  email := r.email
  exam1 := h.exam1.getD 0
  exam1Max := h.exam1Max.getD 0
  exam2 := h.exam2.getD 0
  exam2Max := h.exam2Max.getD 0
  exam3 := h.exam3.getD 0
  exam3Max := h.exam3Max.getD 0
  hwScores := h.hwScores.map fun o => o.getD 0
  hwMax := h.hwMax.map fun o => o.getD 0
  quizScores := q.2.map fun o => o.getD 0

/-- `final_data` (lines 44-52): inner join of roster and homework/exam rows on
NetID = SID, then inner join with the merged quiz DataFrame on the roster
email, then `fillna(0)`.  pandas inner merges emit one output row per matching
pair, preserving left order; the nested flatMaps transcribe that. -/
def final_data (roster : List RosterRow) (hw_exam : List HwExamRow)
    (files : List (List (String × ℚ))) : List StudentRecord :=
  roster.flatMap fun r =>
    (hw_exam.filter fun h => decide (h.sid = r.netid)).flatMap fun h =>
      ((quiz_grades files).filter fun q => decide (q.1 = r.email)).map fun q =>
        joinRecord r h q

/-- Column `Exam 1 Score` (lines 54-58): earned over max for exam 1. -/
def examScore1 (s : StudentRecord) : Option ℚ := qdiv s.exam1 s.exam1Max

/-- Column `Exam 2 Score` (lines 54-58): earned over max for exam 2. -/
def examScore2 (s : StudentRecord) : Option ℚ := qdiv s.exam2 s.exam2Max

/-- Column `Exam 3 Score` (lines 54-58): earned over max for exam 3. -/
def examScore3 (s : StudentRecord) : Option ℚ := qdiv s.exam3 s.exam3Max

/-- `sum_of_hw_scores` (line 63): row sum of the homework score columns. -/
def sum_of_hw_scores (s : StudentRecord) : ℚ := s.hwScores.sum

/-- `sum_of_hw_max` (line 64): row sum of the homework max-points columns. -/
def sum_of_hw_max (s : StudentRecord) : ℚ := s.hwMax.sum

/-- Column `Total Homework` (line 65): homework total-points policy. -/
def totalHomework (s : StudentRecord) : Option ℚ :=
  qdiv (sum_of_hw_scores s) (sum_of_hw_max s)

/-- `overall_hw_scores` (lines 67-68): row sum of the per-homework
earned/max ratios (a skipna sum, as in pandas). -/
def overall_hw_scores (s : StudentRecord) : ℚ :=
  skipSum ((s.hwScores.zip s.hwMax).map fun p => qdiv p.1 p.2)

/-- Column `Overall Homework` (line 69): the ratio sum divided by the number
of homework columns. -/
def overallHomework (s : StudentRecord) : Option ℚ :=
  qdiv (overall_hw_scores s) (s.hwScores.length : ℚ)

/-- Column `Homework Score` (lines 71-73): row-wise skipna maximum of the two
homework policy columns. -/
def homeworkScore (s : StudentRecord) : Option ℚ :=
  skipMax [totalHomework s, overallHomework s]

/-- `quiz_max_points` (lines 77-79): the fixed per-quiz maximum-points table. -/
def quiz_max_points : List (String × ℚ) :=
  [("Quiz 1", 11), ("Quiz 2", 15), ("Quiz 3", 17), ("Quiz 4", 14), ("Quiz 5", 12)]

/-- Column `Total Quizzes` (line 83).  The source divides `sum_of_hw_scores`
by `sum_of_hw_max` here — the homework sums, not the quiz ones. -/
def totalQuizzes (s : StudentRecord) : Option ℚ :=
  qdiv (sum_of_hw_scores s) (sum_of_hw_max s)

/-- `overall_quiz_scores` (line 85): row sum of the per-quiz earned/max
ratios against the fixed maxima table (a skipna sum, as in pandas). -/
def overall_quiz_scores (s : StudentRecord) : ℚ :=
  skipSum ((s.quizScores.zip (quiz_max_points.map Prod.snd)).map fun p => qdiv p.1 p.2)

/-- Column `Overall Quizzes` (line 86): the ratio sum divided by the number of
quiz columns. -/
def overallQuizzes (s : StudentRecord) : Option ℚ :=
  qdiv (overall_quiz_scores s) (s.quizScores.length : ℚ)

/-- Column `Quiz Score` (lines 88-90): row-wise skipna maximum of the two quiz
policy columns. -/
def quizScore (s : StudentRecord) : Option ℚ :=
  skipMax [totalQuizzes s, overallQuizzes s]

/-- `weightings` (lines 92-100): the fixed category weight table. -/
def weightings : List (String × ℚ) :=
  [("Exam 1 Score", 0.05), ("Exam 2 Score", 0.1), ("Exam 3 Score", 0.15),
   ("Quiz Score", 0.30), ("Homework Score", 0.4)]

/-- Column `Final Score` (lines 102-104): skipna row sum of the five weighted
category scores, in the order of the `weightings` index.  NaN products are
skipped by the pandas sum, so the result is always a defined number. -/
def finalScore (s : StudentRecord) : ℚ :=
  skipSum [omul 0.05 (examScore1 s), omul 0.1 (examScore2 s),
           omul 0.15 (examScore3 s), omul 0.30 (quizScore s),
           omul 0.4 (homeworkScore s)]

/-- Column `Ceiling Score` (line 105): `np.ceil` of 100 times the final
score (an integer value). -/
def ceilingScore (s : StudentRecord) : ℤ := ⌈finalScore s * 100⌉

/-- `grades` (lines 107-113): the threshold table in its dictionary insertion
order, highest threshold first. -/
def grades : List (ℤ × String) :=
  [(90, "A"), (80, "B"), (70, "C"), (60, "D"), (0, "F")]

/-- `grade_mapping` (lines 116-119): scan the threshold table in order and
return the letter of the first threshold less than or equal to the value;
`none` when the loop falls through (the Python function returns `None`). -/
def grade_mapping (value : ℤ) : Option String :=
  (grades.find? fun p => decide (p.1 ≤ value)).map Prod.snd

/-- Column `Final Grade` (lines 122-125) for one student. -/
def finalGrade (s : StudentRecord) : Option String := grade_mapping (ceilingScore s)

/-- Rank of a letter on the ordered categorical scale F < D < C < B < A
(line 123-125: `pd.Categorical(..., ordered=True)` over `grades.values()`). -/
def letterRank (l : String) : ℕ :=
  if l = "A" then 4 else if l = "B" then 3 else if l = "C" then 2
  else if l = "D" then 1 else 0

/-- Quiz total-points policy as the spec words it: the sum of the student's
earned quiz points divided by the sum of the fixed per-quiz maxima
(11 + 15 + 17 + 14 + 12).  This is the comparator the source's `totalQuizzes`
is checked against; it is deliberately written from the spec, not the code. -/
def totalQuizzesSpec (s : StudentRecord) : ℚ :=
  s.quizScores.sum / (quiz_max_points.map Prod.snd).sum

/-- Closed form of `grade_mapping`: the scan of the threshold table, highest
first, picks the first threshold below or equal to the value and falls through
to `none` on negative values.  Shared helper for the grade theorems. -/
theorem grade_mapping_eq (v : ℤ) :
    grade_mapping v =
      if 90 ≤ v then some "A" else if 80 ≤ v then some "B"
      else if 70 ≤ v then some "C" else if 60 ≤ v then some "D"
      else if 0 ≤ v then some "F" else none := by
  unfold grade_mapping grades
  by_cases h90 : (90:ℤ) ≤ v
  · simp [List.find?, h90]
  by_cases h80 : (80:ℤ) ≤ v
  · simp [List.find?, h90, h80]
  by_cases h70 : (70:ℤ) ≤ v
  · simp [List.find?, h90, h80, h70]
  by_cases h60 : (60:ℤ) ≤ v
  · simp [List.find?, h90, h80, h70, h60]
  by_cases h0 : (0:ℤ) ≤ v
  · simp [List.find?, h90, h80, h70, h60, h0]
  · simp [List.find?, h90, h80, h70, h60, h0]

/-- C6: grade classification returns the letter of the first threshold less
than or equal to the value when scanning 90/80/70/60/0 from highest to lowest;
it is total on every nonnegative value (the 0 threshold always matches), and
in particular the value 89 is classified as "B".  Determinism holds because
`grade_mapping` is a function of the value alone. -/
theorem c6_grade_classification :
    (∀ v : ℤ, 0 ≤ v →
      grade_mapping v =
        some (if 90 ≤ v then "A" else if 80 ≤ v then "B" else if 70 ≤ v then "C"
              else if 60 ≤ v then "D" else "F")) ∧
    grade_mapping 89 = some "B" := by
  constructor
  · intro v hv
    rw [grade_mapping_eq]
    split_ifs with h1 h2 h3 h4
    · rfl
    · rfl
    · rfl
    · rfl
    · rfl
  · decide

/-- Witness for C6 at the concrete value 89. -/
theorem c6_grade_classification_witness :
    (0:ℤ) ≤ 89 ∧ grade_mapping 89 = some "B" := by
  refine ⟨by decide, ?_⟩
  have h := c6_grade_classification.1 89 (by decide)
  norm_num at h
  exact h

/-- C7: grade classification is monotonic — whenever one ceiling value is at
least another, the letter it receives ranks at least as high on the ordered
scale F < D < C < B < A. -/
theorem c7_grade_monotone (va vb : ℤ) (la lb : String) (hle : vb ≤ va)
    (ha : grade_mapping va = some la) (hb : grade_mapping vb = some lb) :
    letterRank lb ≤ letterRank la := by
  rw [grade_mapping_eq] at ha hb
  split_ifs at ha hb <;>
  first
    | exact Option.noConfusion ha
    | exact Option.noConfusion hb
    | (obtain rfl := Option.some.inj ha
       obtain rfl := Option.some.inj hb
       first | decide | omega)

/-- Witness for C7 at the concrete pair 95 and 85. -/
theorem c7_grade_monotone_witness : letterRank "B" ≤ letterRank "A" :=
  c7_grade_monotone 95 85 "A" "B" (by decide) (by decide) (by decide)

/-- C10: `grade_mapping` returns no letter exactly on the strictly negative
values — every threshold, the 0 one included, is missed there, so totality of
classification rests on the ceiling value being nonnegative. -/
theorem c10_grade_mapping_none_iff_neg (v : ℤ) :
    grade_mapping v = none ↔ v < 0 := by
  constructor
  · intro h
    rw [grade_mapping_eq] at h
    split_ifs at h
    omega
  · intro h
    rw [grade_mapping_eq]
    split_ifs with g1 g2 g3 g4 g5
    · omega
    · omega
    · omega
    · omega
    · omega
    · rfl

/-- Concrete student for C1: homework 5 of 10 points, every quiz scored 0. -/
def c1Student : StudentRecord where
  netid := "jdoe"
  sec := "1"
  email := "jdoe@u.edu"
  exam1 := 1
  exam1Max := 1
  exam2 := 1
  exam2Max := 1
  exam3 := 1
  exam3Max := 1
  hwScores := [5]
  hwMax := [10]
  quizScores := [0, 0, 0, 0, 0]

/-- C1 (code bug): the `Total Quizzes` column of the source divides the
homework sums, not the quiz sums.  For a student with homework 5/10 and all
quiz scores 0 the source column holds 1/2, while the quiz total-points policy
of the claim — earned quiz points over the fixed maxima 11+15+17+14+12 —
is 0; the two disagree. -/
theorem c1_total_quizzes_uses_homework_sums :
    totalQuizzes c1Student = some (1/2) ∧
    totalQuizzesSpec c1Student = 0 ∧
    totalQuizzes c1Student ≠ some (totalQuizzesSpec c1Student) := by
  refine ⟨?_, ?_, ?_⟩ <;>
    norm_num [totalQuizzes, totalQuizzesSpec, qdiv, sum_of_hw_scores,
      sum_of_hw_max, quiz_max_points, c1Student]

/-- Concrete student for C3: homework 0 of 10 points, a perfect score on the
17-point quiz 3 and 0 on the other quizzes. -/
def c3Student : StudentRecord where
  netid := "asmith"
  sec := "2"
  email := "asmith@u.edu"
  exam1 := 1
  exam1Max := 1
  exam2 := 1
  exam2Max := 1
  exam3 := 1
  exam3Max := 1
  hwScores := [0]
  hwMax := [10]
  quizScores := [0, 0, 17, 0, 0]

/-- C3 (code bug): because `Total Quizzes` carries the homework quotient, the
`Quiz Score` column is the maximum of the wrong pair.  For `c3Student` the
source yields Quiz Score 1/5 while the quiz total-points policy value is
17/69 > 1/5, so the claimed law "Quiz Score ≥ quiz total-points policy"
fails on the code (the homework half of the claim is the separate helper
`homeworkScore_max_law` below). -/
theorem c3_quiz_score_below_total_points_policy :
    quizScore c3Student = some (1/5) ∧
    totalQuizzesSpec c3Student = 17/69 ∧
    (1/5 : ℚ) < 17/69 := by
  refine ⟨?_, ?_, by norm_num⟩ <;>
    norm_num [quizScore, totalQuizzes, overallQuizzes, overall_quiz_scores,
      totalQuizzesSpec, skipMax, skipSum, qdiv, sum_of_hw_scores, sum_of_hw_max,
      quiz_max_points, c3Student, List.filterMap_cons]

/-- When all five category scores are defined, the skipna weighted row sum of
lines 102-104 is the plain weighted sum.  Shared helper for the aggregation
theorems. -/
theorem finalScore_eq (s : StudentRecord) (e1 e2 e3 hs qs : ℚ)
    (h1 : examScore1 s = some e1) (h2 : examScore2 s = some e2)
    (h3 : examScore3 s = some e3) (hh : homeworkScore s = some hs)
    (hq : quizScore s = some qs) :
    finalScore s = 0.05 * e1 + 0.1 * e2 + 0.15 * e3 + 0.3 * qs + 0.4 * hs := by
  simp [finalScore, skipSum, omul, h1, h2, h3, hh, hq, List.filterMap_cons]
  ring

/-- C4: whenever the five category scores are defined, the final score is
exactly the weighted sum 0.05, 0.10, 0.15 on the exams, 0.40 on homework and
0.30 on quizzes, and the five weights of the `weightings` table sum to 1. -/
theorem c4_final_score_weighted_sum :
    (∀ (s : StudentRecord) (e1 e2 e3 hs qs : ℚ),
      examScore1 s = some e1 → examScore2 s = some e2 → examScore3 s = some e3 →
      homeworkScore s = some hs → quizScore s = some qs →
      finalScore s = 0.05 * e1 + 0.1 * e2 + 0.15 * e3 + 0.4 * hs + 0.3 * qs) ∧
    (weightings.map Prod.snd).sum = 1 := by
  constructor
  · intro s e1 e2 e3 hs qs h1 h2 h3 hh hq
    rw [finalScore_eq s e1 e2 e3 hs qs h1 h2 h3 hh hq]
    ring
  · norm_num [weightings]

/-- Concrete student for the C4 witness: perfect exams, homework 8/10 and
9/10, perfect quizzes. -/
def c4Student : StudentRecord where
  netid := "blopez"
  sec := "1"
  email := "blopez@u.edu"
  exam1 := 1
  exam1Max := 1
  exam2 := 1
  exam2Max := 1
  exam3 := 1
  exam3Max := 1
  hwScores := [8, 9]
  hwMax := [10, 10]
  quizScores := [11, 15, 17, 14, 12]

/-- Witness for C4 at `c4Student`, whose homework score is 17/20 and whose
other category scores are 1. -/
theorem c4_final_score_weighted_sum_witness :
    homeworkScore c4Student = some (17/20) ∧
    finalScore c4Student = 0.05 * 1 + 0.1 * 1 + 0.15 * 1 + 0.4 * (17/20) + 0.3 * 1 := by
  refine ⟨?_, c4_final_score_weighted_sum.1 c4Student 1 1 1 (17/20) 1 ?_ ?_ ?_ ?_ ?_⟩ <;>
    norm_num [examScore1, examScore2, examScore3, homeworkScore, quizScore,
      totalHomework, overallHomework, overall_hw_scores, totalQuizzes,
      overallQuizzes, overall_quiz_scores, sum_of_hw_scores, sum_of_hw_max,
      skipMax, skipSum, qdiv, quiz_max_points, c4Student, List.filterMap_cons]

/-- Concrete student for C5 whose five category scores are all 1.1 (extra
credit everywhere): the ceiling percentage overshoots 100. -/
def c5Student : StudentRecord where
  netid := "cchen"
  sec := "3"
  email := "cchen@u.edu"
  exam1 := 11
  exam1Max := 10
  exam2 := 11
  exam2Max := 10
  exam3 := 11
  exam3Max := 10
  hwScores := [11]
  hwMax := [10]
  quizScores := [0, 0, 0, 0, 0]

/-- C5: the ceiling column is the ceiling of 100 times the final score; when
all five category scores lie in [0, 1] it is an integer between 0 and 100; and
no clamping is applied — `c5Student`, whose category scores are all 1.1,
reaches a ceiling percentage above 100. -/
theorem c5_ceiling_score :
    (∀ s : StudentRecord, ceilingScore s = ⌈finalScore s * 100⌉) ∧
    (∀ (s : StudentRecord) (e1 e2 e3 hs qs : ℚ),
      examScore1 s = some e1 → examScore2 s = some e2 → examScore3 s = some e3 →
      homeworkScore s = some hs → quizScore s = some qs →
      0 ≤ e1 → e1 ≤ 1 → 0 ≤ e2 → e2 ≤ 1 → 0 ≤ e3 → e3 ≤ 1 →
      0 ≤ hs → hs ≤ 1 → 0 ≤ qs → qs ≤ 1 →
      0 ≤ ceilingScore s ∧ ceilingScore s ≤ 100) ∧
    100 < ceilingScore c5Student := by
  refine ⟨fun s => rfl, ?_, ?_⟩
  · intro s e1 e2 e3 hs qs h1 h2 h3 hh hq l1 u1 l2 u2 l3 u3 lh uh lq uq
    have hfs := finalScore_eq s e1 e2 e3 hs qs h1 h2 h3 hh hq
    unfold ceilingScore
    rw [hfs]
    constructor
    · exact Int.ceil_nonneg (by nlinarith)
    · rw [Int.ceil_le]
      push_cast
      nlinarith
  · have : ceilingScore c5Student = 110 := by
      unfold ceilingScore
      norm_num [finalScore, examScore1, examScore2, examScore3, homeworkScore,
        quizScore, totalHomework, overallHomework, overall_hw_scores,
        totalQuizzes, overallQuizzes, overall_quiz_scores, sum_of_hw_scores,
        sum_of_hw_max, skipMax, skipSum, omul, qdiv, quiz_max_points, c5Student,
        List.filterMap_cons]
    rw [this]
    norm_num

/-- Concrete student for the C5 witness: all category scores inside [0, 1]. -/
def c5BoundedStudent : StudentRecord where
  netid := "dkim"
  sec := "1"
  email := "dkim@u.edu"
  exam1 := 1
  exam1Max := 2
  exam2 := 1
  exam2Max := 2
  exam3 := 1
  exam3Max := 2
  hwScores := [8, 9]
  hwMax := [10, 10]
  quizScores := [11, 15, 17, 14, 12]

/-- Witness for C5 at `c5BoundedStudent`, whose category scores are
1/2, 1/2, 1/2, 17/20 and 1, all inside [0, 1]. -/
theorem c5_ceiling_score_witness :
    0 ≤ ceilingScore c5BoundedStudent ∧ ceilingScore c5BoundedStudent ≤ 100 := by
  refine c5_ceiling_score.2.1 c5BoundedStudent (1/2) (1/2) (1/2) (17/20) 1
    ?_ ?_ ?_ ?_ ?_ (by norm_num) (by norm_num) (by norm_num) (by norm_num)
    (by norm_num) (by norm_num) (by norm_num) (by norm_num) (by norm_num)
    (by norm_num) <;>
    norm_num [examScore1, examScore2, examScore3, homeworkScore, quizScore,
      totalHomework, overallHomework, overall_hw_scores, totalQuizzes,
      overallQuizzes, overall_quiz_scores, sum_of_hw_scores, sum_of_hw_max,
      skipMax, skipSum, qdiv, quiz_max_points, c5BoundedStudent,
      List.filterMap_cons]

/-- Ratios of nonnegative quiz scores over the fixed positive maxima are
nonnegative, hence so is their skipna sum.  Shared helper. -/
theorem overall_quiz_scores_nonneg (s : StudentRecord)
    (hq : ∀ x ∈ s.quizScores, 0 ≤ x) : 0 ≤ overall_quiz_scores s := by
  apply List.sum_nonneg
  intro x hx
  rw [List.mem_filterMap] at hx
  obtain ⟨o, ho, hid⟩ := hx
  simp only [id] at hid
  subst hid
  rw [List.mem_map] at ho
  obtain ⟨p, hp, hqd⟩ := ho
  have hmem := List.of_mem_zip hp
  have h1 := hq p.1 hmem.1
  have h2 : (0:ℚ) < p.2 := by
    have := hmem.2
    simp only [quiz_max_points, List.map_cons, List.map_nil, List.mem_cons,
      List.not_mem_nil, or_false] at this
    rcases this with h | h | h | h | h <;> rw [h] <;> norm_num
  rw [qdiv, if_neg h2.ne'] at hqd
  obtain rfl := Option.some.inj hqd
  exact div_nonneg h1 h2.le

/-- Appending an undefined cell does not change a skipna sum.  Shared
helper. -/
theorem skipSum_concat_none (l : List (Option ℚ)) :
    skipSum (l ++ [none]) = skipSum l := by
  simp [skipSum]

/-- Concrete student for C8: a course offering with zero homework items. -/
def c8Student : StudentRecord where
  netid := "efox"
  sec := "2"
  email := "efox@u.edu"
  exam1 := 1
  exam1Max := 2
  exam2 := 1
  exam2Max := 2
  exam3 := 1
  exam3Max := 2
  hwScores := []
  hwMax := []
  quizScores := [3, 3, 3, 3, 3]

/-- C8 counterexample: with zero homework items the category scorer applies no
guard at all — the average-of-ratios column and the resulting homework
category score are both the undefined value (0/0, NaN), not a skipped policy
and not zero. -/
theorem c8_no_degenerate_guard :
    overallHomework c8Student = none ∧ homeworkScore c8Student = none := by
  constructor
  · simp [overallHomework, overall_hw_scores, qdiv, c8Student, skipSum]
  · simp [homeworkScore, totalHomework, overallHomework, overall_hw_scores,
      sum_of_hw_scores, sum_of_hw_max, qdiv, c8Student, skipMax, skipSum,
      List.filterMap_cons]

/-- C8 amended: the scorer leaves the zero-item homework category undefined
(NaN in both policy columns and in the category score), and the undefined
value is absorbed rather than propagated — the skipna weighted sum simply
drops the homework term, and with nonnegative defined inputs a final grade is
still produced. -/
theorem c8_degenerate_category_absorbed (s : StudentRecord)
    (hhs : s.hwScores = []) (hhm : s.hwMax = [])
    (he1 : 0 ≤ s.exam1) (hp1 : 0 < s.exam1Max)
    (he2 : 0 ≤ s.exam2) (hp2 : 0 < s.exam2Max)
    (he3 : 0 ≤ s.exam3) (hp3 : 0 < s.exam3Max)
    (hq : ∀ x ∈ s.quizScores, 0 ≤ x) :
    totalHomework s = none ∧ overallHomework s = none ∧
    homeworkScore s = none ∧
    finalScore s =
      skipSum [omul 0.05 (examScore1 s), omul 0.1 (examScore2 s),
               omul 0.15 (examScore3 s), omul 0.30 (quizScore s)] ∧
    (finalGrade s).isSome = true := by
  have ht : totalHomework s = none := by
    simp [totalHomework, sum_of_hw_scores, sum_of_hw_max, hhs, hhm, qdiv]
  have ho : overallHomework s = none := by
    simp [overallHomework, hhs, qdiv]
  have hhw : homeworkScore s = none := by
    simp [homeworkScore, ht, ho, skipMax, List.filterMap_cons]
  have htq : totalQuizzes s = none := by
    simp [totalQuizzes, sum_of_hw_scores, sum_of_hw_max, hhs, hhm, qdiv]
  have hqs : quizScore s = overallQuizzes s := by
    cases hov : overallQuizzes s <;>
      simp [quizScore, skipMax, htq, hov, List.filterMap_cons]
  have hfs : finalScore s =
      skipSum [omul 0.05 (examScore1 s), omul 0.1 (examScore2 s),
               omul 0.15 (examScore3 s), omul 0.30 (quizScore s)] := by
    unfold finalScore
    rw [hhw]
    have hmn : (omul 0.4 (none : Option ℚ)) = none := rfl
    rw [hmn]
    exact skipSum_concat_none
      [omul 0.05 (examScore1 s), omul 0.1 (examScore2 s),
       omul 0.15 (examScore3 s), omul 0.30 (quizScore s)]
  have hnn : 0 ≤ finalScore s := by
    rw [hfs]
    apply List.sum_nonneg
    intro x hx
    rw [List.mem_filterMap] at hx
    obtain ⟨o, hol, hid⟩ := hx
    simp only [id] at hid
    subst hid
    simp only [List.mem_cons, List.not_mem_nil, or_false] at hol
    rcases hol with h | h | h | h
    · rw [omul, examScore1, qdiv, if_neg hp1.ne'] at h
      obtain rfl := Option.some.inj h
      have := div_nonneg he1 hp1.le
      nlinarith
    · rw [omul, examScore2, qdiv, if_neg hp2.ne'] at h
      obtain rfl := Option.some.inj h
      have := div_nonneg he2 hp2.le
      nlinarith
    · rw [omul, examScore3, qdiv, if_neg hp3.ne'] at h
      obtain rfl := Option.some.inj h
      have := div_nonneg he3 hp3.le
      nlinarith
    · rw [hqs, overallQuizzes] at h
      by_cases hz : ((s.quizScores.length : ℚ)) = 0
      · rw [omul, qdiv, if_pos hz] at h
        exact Option.noConfusion h
      · rw [omul, qdiv, if_neg hz] at h
        obtain rfl := Option.some.inj h
        have hlen : (0:ℚ) ≤ (s.quizScores.length : ℚ) := by positivity
        have := div_nonneg (overall_quiz_scores_nonneg s hq) hlen
        nlinarith
  have hc : 0 ≤ ceilingScore s := by
    unfold ceilingScore
    exact Int.ceil_nonneg (by nlinarith)
  refine ⟨ht, ho, hhw, hfs, ?_⟩
  unfold finalGrade
  rw [grade_mapping_eq]
  split_ifs <;> rfl

/-- Witness for C8 at `c8Student`: the homework category is NaN while the
final grade is still produced. -/
theorem c8_degenerate_category_absorbed_witness :
    homeworkScore c8Student = none ∧ (finalGrade c8Student).isSome = true := by
  have h := c8_degenerate_category_absorbed c8Student rfl rfl
    (by norm_num [c8Student]) (by norm_num [c8Student])
    (by norm_num [c8Student]) (by norm_num [c8Student])
    (by norm_num [c8Student]) (by norm_num [c8Student])
    (by intro x hx; simp [c8Student] at hx; rw [hx]; norm_num)
  exact ⟨h.2.2.1, h.2.2.2.2⟩

/-- Homework max-selection law (spec section 4.3, homework side): when both
policy columns are defined the category score is their maximum. -/
theorem homeworkScore_max_law (s : StudentRecord) (a b : ℚ)
    (hta : totalHomework s = some a) (hob : overallHomework s = some b) :
    homeworkScore s = some (max a b) := by
  simp [homeworkScore, skipMax, hta, hob, List.filterMap_cons]

/-- Number of students by NetID in the joined output. -/
def countStudent (roster : List RosterRow) (hw_exam : List HwExamRow)
    (files : List (List (String × ℚ))) (id : String) : ℕ :=
  ((final_data roster hw_exam files).filter fun s => decide (s.netid = id)).length

/-- Filtered length distributes over flatMap.  Shared helper. -/
theorem length_filter_flatMap {α β : Type} (l : List α) (f : α → List β) (p : β → Bool) :
    ((l.flatMap f).filter p).length = (l.map fun a => ((f a).filter p).length).sum := by
  induction l with
  | nil => simp
  | cons a t ih => simp [List.flatMap_cons, List.filter_append, ih]

/-- A constant-valued map sums to length times the constant.  Shared helper. -/
theorem sum_map_const_nat {α : Type} (l : List α) (c : ℕ) :
    (l.map fun _ => c).sum = l.length * c := by
  induction l with
  | nil => simp
  | cons a t ih => simp [ih, Nat.succ_mul, Nat.add_comm]

/-- In a list whose keys are pairwise distinct, filtering on the key of a
member retains exactly that member.  Shared helper. -/
theorem length_filter_key_eq_one {α β : Type} [DecidableEq β] (f : α → β) (l : List α)
    (hnd : (l.map f).Nodup) (x : α) (hx : x ∈ l) :
    (l.filter fun a => decide (f a = f x)).length = 1 := by
  induction l with
  | nil => cases hx
  | cons a t ih =>
    rw [List.map_cons, List.nodup_cons] at hnd
    rcases List.mem_cons.mp hx with rfl | hxt
    · have htz : (t.filter fun b => decide (f b = f x)).length = 0 := by
        rw [List.length_eq_zero, List.filter_eq_nil_iff]
        intro b hb
        simp only [decide_eq_true_eq]
        exact fun hfb => hnd.1 (hfb ▸ List.mem_map_of_mem f hb)
      simp [List.filter_cons, htz]
    · have hne : ¬ (f a = f x) := fun h => hnd.1 (h ▸ List.mem_map_of_mem f hxt)
      simp [List.filter_cons, hne, ih hnd.2 hxt]

/-- Filtering on a key absent from a list retains nothing.  Shared helper. -/
theorem length_filter_key_eq_zero {α β : Type} [DecidableEq β] (f : α → β) (l : List α)
    (k : β) (hk : k ∉ l.map f) :
    (l.filter fun a => decide (f a = k)).length = 0 := by
  rw [List.length_eq_zero, List.filter_eq_nil_iff]
  intro b hb
  simp only [decide_eq_true_eq]
  exact fun hfb => hk (hfb ▸ List.mem_map_of_mem f hb)

/-- Summing a key-guarded map over a list with pairwise-distinct keys picks
out the member's value.  Shared helper. -/
theorem sum_map_key {α β : Type} [DecidableEq β] (f : α → β) (g : α → ℕ) (l : List α)
    (hnd : (l.map f).Nodup) (x : α) (hx : x ∈ l) :
    (l.map fun a => if f a = f x then g a else 0).sum = g x := by
  induction l with
  | nil => cases hx
  | cons a t ih =>
    rw [List.map_cons, List.nodup_cons] at hnd
    rcases List.mem_cons.mp hx with rfl | hxt
    · have htz : (t.map fun b => if f b = f x then g b else 0).sum = 0 := by
        apply List.sum_eq_zero
        intro y hy
        rw [List.mem_map] at hy
        obtain ⟨b, hb, rfl⟩ := hy
        have : ¬ (f b = f x) := fun h => hnd.1 (h ▸ List.mem_map_of_mem f hb)
        simp [this]
      simp [htz]
    · have hne : ¬ (f a = f x) := fun h => hnd.1 (h ▸ List.mem_map_of_mem f hxt)
      simp [hne, ih hnd.2 hxt]

/-- Lists whose elements all carry one key either pass a key filter whole
or are wiped out by it.  Shared helper. -/
theorem length_filter_const_key {α β : Type} [DecidableEq β] (key : α → β) (l : List α)
    (k0 id : β) (h : ∀ x ∈ l, key x = k0) :
    (l.filter fun x => decide (key x = id)).length = if k0 = id then l.length else 0 := by
  split_ifs with hid
  · rw [List.filter_eq_self.mpr]
    intro x hx
    simp [h x hx, hid]
  · rw [List.length_eq_zero, List.filter_eq_nil_iff]
    intro x hx
    simp only [decide_eq_true_eq]
    rw [h x hx]
    exact hid

/-- The keys of the merged quiz DataFrame are exactly its email index. -/
theorem quiz_grades_map_fst (files : List (List (String × ℚ))) :
    (quiz_grades files).map Prod.fst = quiz_grades_emails files := by
  unfold quiz_grades
  rw [List.map_map]
  have hfn : (Prod.fst ∘ fun em : String =>
      (em, files.map fun f => quizLookup f em)) = id := rfl
  rw [hfn, List.map_id]

/-- Join cardinality, computed: the number of output rows carrying a roster
row's NetID is the number of matching assessment rows times the number of
matching merged-quiz rows.  Shared helper. -/
theorem countStudent_eq (roster : List RosterRow) (hw_exam : List HwExamRow)
    (files : List (List (String × ℚ)))
    (hr : (roster.map RosterRow.netid).Nodup)
    (r : RosterRow) (hrm : r ∈ roster) :
    countStudent roster hw_exam files r.netid =
      (hw_exam.filter fun h => decide (h.sid = r.netid)).length *
        ((quiz_grades files).filter fun q => decide (q.1 = r.email)).length := by
  unfold countStudent final_data
  rw [length_filter_flatMap]
  have hrow : ∀ r' : RosterRow,
      ((((hw_exam.filter fun h => decide (h.sid = r'.netid)).flatMap fun h =>
        ((quiz_grades files).filter fun q => decide (q.1 = r'.email)).map fun q =>
          joinRecord r' h q).filter fun s => decide (s.netid = r.netid)).length) =
      if r'.netid = r.netid then
        (hw_exam.filter fun h => decide (h.sid = r'.netid)).length *
          ((quiz_grades files).filter fun q => decide (q.1 = r'.email)).length
      else 0 := by
    intro r'
    rw [length_filter_const_key StudentRecord.netid _ r'.netid r.netid ?hmem]
    case hmem =>
      intro x hx
      rw [List.mem_flatMap] at hx
      obtain ⟨h, _, hx⟩ := hx
      rw [List.mem_map] at hx
      obtain ⟨q, _, rfl⟩ := hx
      rfl
    split_ifs with hid
    · rw [List.length_flatMap]
      simp only [Function.comp_def, List.length_map]
      rw [sum_map_const_nat]
    · rfl
  rw [funext hrow]
  exact sum_map_key RosterRow.netid
    (fun r' => (hw_exam.filter fun h => decide (h.sid = r'.netid)).length *
      ((quiz_grades files).filter fun q => decide (q.1 = r'.email)).length)
    roster hr r hrm

/-- C2 amended: with unique NetID and SID keys, a roster student matched by an
assessment row yields exactly one output row when the student's email appears
in at least one quiz file and none otherwise; a student unmatched in the
assessment source yields none.  (The second inner merge is also an inner join,
so absence from every quiz source excludes the student instead of defaulting
the quiz fields to zero.) -/
theorem c2_join_cardinality (roster : List RosterRow) (hw_exam : List HwExamRow)
    (files : List (List (String × ℚ)))
    (hr : (roster.map RosterRow.netid).Nodup)
    (hh : (hw_exam.map HwExamRow.sid).Nodup)
    (r : RosterRow) (hrm : r ∈ roster) :
    ((∃ h ∈ hw_exam, h.sid = r.netid) →
      countStudent roster hw_exam files r.netid =
        if r.email ∈ quiz_grades_emails files then 1 else 0) ∧
    ((∀ h ∈ hw_exam, h.sid ≠ r.netid) →
      countStudent roster hw_exam files r.netid = 0) := by
  have hce := countStudent_eq roster hw_exam files hr r hrm
  constructor
  · rintro ⟨h, hmem, hsid⟩
    have h1 : (hw_exam.filter fun h' => decide (h'.sid = r.netid)).length = 1 := by
      have := length_filter_key_eq_one HwExamRow.sid hw_exam hh h hmem
      rwa [hsid] at this
    by_cases hq : r.email ∈ quiz_grades_emails files
    · have hqmem : (r.email, files.map fun f => quizLookup f r.email) ∈
          quiz_grades files := List.mem_map_of_mem _ hq
      have hnd : ((quiz_grades files).map Prod.fst).Nodup := by
        rw [quiz_grades_map_fst]
        exact List.nodup_dedup _
      have h2 : ((quiz_grades files).filter fun q => decide (q.1 = r.email)).length = 1 := by
        have := length_filter_key_eq_one Prod.fst (quiz_grades files) hnd _ hqmem
        simpa using this
      rw [hce, h1, h2, if_pos hq]
    · have h2 : ((quiz_grades files).filter fun q => decide (q.1 = r.email)).length = 0 := by
        apply length_filter_key_eq_zero Prod.fst _ r.email
        rw [quiz_grades_map_fst]
        exact hq
      rw [hce, h1, h2, if_neg hq]
  · intro hnone
    have h1 : (hw_exam.filter fun h' => decide (h'.sid = r.netid)).length = 0 := by
      rw [List.length_eq_zero, List.filter_eq_nil_iff]
      intro h hmem
      simp only [decide_eq_true_eq]
      exact hnone h hmem
    rw [hce, h1, Nat.zero_mul]

/-- Roster for the C2 scenarios: one student. -/
def c2Roster : List RosterRow := [⟨"fgarcia", "fgarcia@u.edu", "1"⟩]

/-- Assessment rows for the C2 scenarios: the same student, fully graded. -/
def c2HwExam : List HwExamRow :=
  [⟨"fgarcia", "fgarcia@u.edu", [some 5], [some 10],
    some 1, some 1, some 1, some 1, some 1, some 1⟩]

/-- Quiz files for the C2 counterexample: one quiz file that does not mention
the student. -/
def c2Files : List (List (String × ℚ)) := [[("gharris@u.edu", 7)]]

/-- C2 counterexample: a student present in both the roster and the
assessment source but absent from every quiz source receives no output row at
all — the joined table is empty, against the claimed all-zero quiz default. -/
theorem c2_quiz_absent_student_excluded :
    (∃ r ∈ c2Roster, ∃ h ∈ c2HwExam, h.sid = r.netid) ∧
    final_data c2Roster c2HwExam c2Files = [] := by
  constructor
  · exact ⟨⟨"fgarcia", "fgarcia@u.edu", "1"⟩, by simp [c2Roster],
      ⟨"fgarcia", "fgarcia@u.edu", [some 5], [some 10],
        some 1, some 1, some 1, some 1, some 1, some 1⟩, by simp [c2HwExam], rfl⟩
  · rfl

/-- Quiz files for the C2 witness: one quiz file that does mention the
student. -/
def c2PresentFiles : List (List (String × ℚ)) := [[("fgarcia@u.edu", 7)]]

/-- Witness for C2 at the one-student data: the student is counted exactly
once when present in a quiz file. -/
theorem c2_join_cardinality_witness :
    countStudent c2Roster c2HwExam c2PresentFiles "fgarcia" = 1 := by
  have h := (c2_join_cardinality c2Roster c2HwExam c2PresentFiles
    (by simp [c2Roster]) (by simp [c2HwExam])
    ⟨"fgarcia", "fgarcia@u.edu", "1"⟩ (by simp [c2Roster])).1
    ⟨⟨"fgarcia", "fgarcia@u.edu", [some 5], [some 10],
      some 1, some 1, some 1, some 1, some 1, some 1⟩, by simp [c2HwExam], rfl⟩
  rwa [if_pos (by decide)] at h

/-- C9: every row of the joined output has each numeric field equal to the
matching source cell with missing values replaced by zero — in particular the
quiz column of a quiz file that lacks the student's email is 0 — and the
substitution is a total function of the sources (no error path exists). -/
theorem c9_missing_fields_zeroed (roster : List RosterRow) (hw_exam : List HwExamRow)
    (files : List (List (String × ℚ))) (s : StudentRecord)
    (hs : s ∈ final_data roster hw_exam files) :
    s.quizScores = files.map (fun f => (quizLookup f s.email).getD 0) ∧
    ∃ h ∈ hw_exam, h.sid = s.netid ∧
      s.exam1 = h.exam1.getD 0 ∧ s.exam1Max = h.exam1Max.getD 0 ∧
      s.exam2 = h.exam2.getD 0 ∧ s.exam2Max = h.exam2Max.getD 0 ∧
      s.exam3 = h.exam3.getD 0 ∧ s.exam3Max = h.exam3Max.getD 0 ∧
      s.hwScores = h.hwScores.map (fun o => o.getD 0) ∧
      s.hwMax = h.hwMax.map (fun o => o.getD 0) := by
  unfold final_data at hs
  rw [List.mem_flatMap] at hs
  obtain ⟨r, hrm, hs⟩ := hs
  rw [List.mem_flatMap] at hs
  obtain ⟨h, hh, hs⟩ := hs
  rw [List.mem_filter] at hh
  obtain ⟨hhm, hsid⟩ := hh
  rw [List.mem_map] at hs
  obtain ⟨q, hq, rfl⟩ := hs
  rw [List.mem_filter] at hq
  obtain ⟨hqm, hqe⟩ := hq
  rw [quiz_grades, List.mem_map] at hqm
  obtain ⟨em, hem, rfl⟩ := hqm
  simp only [decide_eq_true_eq] at hsid hqe
  subst hqe
  constructor
  · show (files.map fun f => quizLookup f r.email).map (fun o => o.getD 0) = _
    rw [List.map_map]
    rfl
  · exact ⟨h, hhm, hsid, rfl, rfl, rfl, rfl, rfl, rfl, rfl, rfl⟩

/-- Roster for the C9 witness. -/
def c9Roster : List RosterRow := [⟨"hlee", "hlee@u.edu", "1"⟩]

/-- Assessment rows for the C9 witness: the second homework cell and the
exam-2 cell are missing. -/
def c9HwExam : List HwExamRow :=
  [⟨"hlee", "hlee@u.edu", [some 5, none], [some 10, some 10],
    some 1, some 1, none, some 1, some 1, some 1⟩]

/-- Quiz files for the C9 witness: the student appears in the first quiz file
only. -/
def c9Files : List (List (String × ℚ)) :=
  [[("hlee@u.edu", 9)], [("iwong@u.edu", 4)]]

/-- The single joined row of the C9 witness data: every missing cell is 0. -/
def c9Record : StudentRecord where
  netid := "hlee"
  sec := "1"
  email := "hlee@u.edu"
  exam1 := 1
  exam1Max := 1
  exam2 := 0
  exam2Max := 1
  exam3 := 1
  exam3Max := 1
  hwScores := [5, 0]
  hwMax := [10, 10]
  quizScores := [9, 0]

/-- Witness for C9: on the concrete sources the joined row is `c9Record`, and
its quiz column for the file lacking the student is 0. -/
theorem c9_missing_fields_zeroed_witness :
    c9Record ∈ final_data c9Roster c9HwExam c9Files ∧
    c9Record.quizScores = c9Files.map (fun f => (quizLookup f c9Record.email).getD 0) := by
  have hmem : c9Record ∈ final_data c9Roster c9HwExam c9Files := by
    have : final_data c9Roster c9HwExam c9Files = [c9Record] := rfl
    rw [this]
    exact List.mem_singleton.mpr rfl
  exact ⟨hmem, (c9_missing_fields_zeroed c9Roster c9HwExam c9Files c9Record hmem).1⟩
